import Mathlib

/-!
Shallow embedding of the Feedback_system backend core
(src/Backend/src/routes/feedback.js — two observed variants, a Groq-based one
and a Gemini-based one — plus src/Backend/src/utils/Sentimentengine.js and the
data model), together with proofs settling the frozen claims about the spec.

Conventions of the embedding:
* JavaScript strings are Lean `String`s; `.trim()` is modelled by `jsTrim`
  (the four common whitespace characters; JS trims a slightly larger set,
  immaterial for every input considered here).
* `JSON.parse` is modelled by `jsonParse`, an executable recursive-descent
  parser for JSON values (model restriction: integer numerals only and no
  \u escapes; no input used by any theorem or witness relies on those forms).
* The regex `/\{[\s\S]*\}/` used by both parse ladders is modelled by
  `braceSlice`: the substring from the first `{` to the last `}` (the regex is
  greedy, so a match runs from the leftmost `{` to the rightmost `}`).
* Network effects are modelled by passing the outcome of the single `fetch`
  (plus body-JSON extraction) as an explicit `ServiceOutcome` argument, and by
  returning the number of fetches attempted (`fetchCalls`) alongside the
  result, so that "no external call is made" is a provable statement.
* A JS function that can throw is modelled with `Except String`; the
  express route handlers' `catch` blocks become `match` on that `Except`.
-/

namespace FeedbackSystem

/-! ### JS string primitives -/

/-- Whitespace test used by the model of `String.prototype.trim`. -/
def isWsChar (c : Char) : Bool :=
  c = ' ' || c = '\t' || c = '\n' || c = '\r'

/-- Trim on the underlying character list. -/
def jsTrimList (l : List Char) : List Char :=
  ((l.dropWhile isWsChar).reverse.dropWhile isWsChar).reverse

/-- Model of JS `s.trim()`. -/
def jsTrim (s : String) : String :=
  ⟨jsTrimList s.data⟩

/-- Model of JS `s.toLowerCase()` (ASCII case mapping; the labels involved
are ASCII). -/
def jsToLower (s : String) : String :=
  ⟨s.data.map Char.toLower⟩

/-! ### JSON values and `JSON.parse` -/

/-- JSON values as produced by `JSON.parse`. -/
inductive Json where
  | null
  | bool (b : Bool)
  | num (n : Int)
  | str (s : String)
  | arr (elems : List Json)
  | obj (fields : List (String × Json))

/-- JS truthiness of a parsed JSON value (`undefined`/`NaN` cannot arise
from `JSON.parse` results used here). -/
def Json.truthy : Json → Bool
  | .null => false
  | .bool b => b
  | .num n => decide (n ≠ 0)
  | .str s => decide (s ≠ "")
  | .arr _ => true
  | .obj _ => true

/-- JS property read `v[k]` on a parsed value: `none` models `undefined`.
On duplicate keys `JSON.parse` keeps the last occurrence. Reading a property
of `null` throws in JS; call sites that can reach `null` handle it explicitly. -/
def Json.get? : Json → String → Option Json
  | .obj fs, k => (fs.reverse.find? (fun p => p.1 = k)).map (·.2)
  | _, _ => none

/-- `typeof v === "object" && v` — true for objects and arrays, false for
`null` (falsy), strings, numbers and booleans. -/
def Json.isObjLike : Json → Bool
  | .obj _ => true
  | .arr _ => true
  | _ => false

/-- Drop leading JSON whitespace. -/
def skipWs : List Char → List Char
  | [] => []
  | c :: cs => if isWsChar c then skipWs cs else c :: cs

/-- Consume an expected literal keyword. -/
def parseLit : List Char → List Char → Option (List Char)
  | [], cs => some cs
  | _ :: _, [] => none
  | l :: ls, c :: cs => if c = l then parseLit ls cs else none

/-- Span of leading decimal digits. -/
def spanDigits : List Char → List Char × List Char
  | [] => ([], [])
  | c :: cs =>
    if c.isDigit then
      let (d, r) := spanDigits cs
      (c :: d, r)
    else ([], c :: cs)

/-- Digit run to a natural number. -/
def digitsToNat (ds : List Char) : Nat :=
  ds.foldl (fun n c => n * 10 + (c.toNat - 48)) 0

/-- JSON string escapes as a lookup table (model restriction: no \u
escapes). -/
def escChar (e : Char) : Option Char :=
  List.lookup e
    [('"', '"'), ('\\', '\\'), ('/', '/'), ('n', '\n'), ('t', '\t'),
     ('r', '\r'), ('b', Char.ofNat 8), ('f', Char.ofNat 12)]

/-- Body of a JSON string after the opening quote; returns the decoded
content with the rest after the closing quote. -/
def parseStringBody : List Char → Option (List Char × List Char)
  | [] => none
  | '"' :: rest => some ([], rest)
  | '\\' :: rest =>
    match rest with
    | [] => none
    | e :: rest' =>
      match escChar e with
      | none => none
      | some c => (parseStringBody rest').map (fun p => (c :: p.1, p.2))
  | c :: rest => (parseStringBody rest).map (fun p => (c :: p.1, p.2))

/-- Elements of a JSON array after the first element is due; `pv` parses one
value (including its leading whitespace). -/
def parseArrTail (pv : List Char → Option (Json × List Char)) :
    Nat → List Char → Option (List Json × List Char)
  | 0, _ => none
  | fuel + 1, cs =>
    match pv cs with
    | none => none
    | some (v, rest) =>
      match skipWs rest with
      | ',' :: rest' => (parseArrTail pv fuel rest').map (fun p => (v :: p.1, p.2))
      | ']' :: rest' => some ([v], rest')
      | _ => none

/-- Members of a JSON object after the first member is due. -/
def parseObjTail (pv : List Char → Option (Json × List Char)) :
    Nat → List Char → Option (List (String × Json) × List Char)
  | 0, _ => none
  | fuel + 1, cs =>
    match skipWs cs with
    | '"' :: rest =>
      match parseStringBody rest with
      | none => none
      | some (key, rest1) =>
        match skipWs rest1 with
        | ':' :: rest2 =>
          match pv rest2 with
          | none => none
          | some (v, rest3) =>
            match skipWs rest3 with
            | ',' :: rest4 =>
              (parseObjTail pv fuel rest4).map (fun p => ((⟨key⟩, v) :: p.1, p.2))
            | '}' :: rest4 => some ([(⟨key⟩, v)], rest4)
            | _ => none
        | _ => none
    | _ => none

/-- One JSON value (leading whitespace allowed), fuelled by input length. -/
def parseVal : Nat → List Char → Option (Json × List Char)
  | 0, _ => none
  | fuel + 1, cs =>
    match skipWs cs with
    | [] => none
    | c :: rest =>
      if c = '{' then
        match skipWs rest with
        | '}' :: rest' => some (.obj [], rest')
        | _ => (parseObjTail (parseVal fuel) fuel rest).map (fun p => (.obj p.1, p.2))
      else if c = '[' then
        match skipWs rest with
        | ']' :: rest' => some (.arr [], rest')
        | _ => (parseArrTail (parseVal fuel) fuel rest).map (fun p => (.arr p.1, p.2))
      else if c = '"' then
        (parseStringBody rest).map (fun p => (.str ⟨p.1⟩, p.2))
      else if c = 't' then
        (parseLit ['r', 'u', 'e'] rest).map (fun r => (.bool true, r))
      else if c = 'f' then
        (parseLit ['a', 'l', 's', 'e'] rest).map (fun r => (.bool false, r))
      else if c = 'n' then
        (parseLit ['u', 'l', 'l'] rest).map (fun r => (.null, r))
      else if c = '-' then
        match spanDigits rest with
        | ([], _) => none
        | (ds, r) =>
          match r with
          | '.' :: _ => none
          | 'e' :: _ => none
          | 'E' :: _ => none
          | _ => some (.num (-(digitsToNat ds : Int)), r)
      else if c.isDigit then
        match spanDigits (c :: rest) with
        | ([], _) => none
        | (ds, r) =>
          match r with
          | '.' :: _ => none
          | 'e' :: _ => none
          | 'E' :: _ => none
          | _ => some (.num (digitsToNat ds : Int), r)
      else none

/-- Model of `JSON.parse`: one value covering the full input. -/
def jsonParse (s : String) : Option Json :=
  match parseVal (s.length + 1) s.data with
  | some (v, rest) => if skipWs rest = [] then some v else none
  | none => none

/-- Model of `text.match(/\{[\s\S]*\}/)`: the (greedy, leftmost) match runs
from the first `{` to the last `}`; `none` when no such pair exists. -/
def braceSlice (s : String) : Option String :=
  match s.data.findIdx? (fun c => c = '{') with
  | none => none
  | some i =>
    match s.data.reverse.findIdx? (fun c => c = '}') with
    | none => none
    | some k =>
      let j := s.data.length - 1 - k
      if i < j then some ⟨(s.data.drop i).take (j - i + 1)⟩ else none

/-! ### First-seen deduplication (JS `Array.from(new Set(xs))`) -/

/-- Worker for `dedupFirst`: `seen` accumulates the values already kept. -/
def dedupFirstAux {α : Type} [DecidableEq α] (seen : List α) :
    List α → List α
  | [] => []
  | x :: xs =>
    if x ∈ seen then dedupFirstAux seen xs
    else x :: dedupFirstAux (x :: seen) xs

/-- `Array.from(new Set(xs))`: keep the first occurrence of each element,
in first-seen order. -/
def dedupFirst {α : Type} [DecidableEq α] (l : List α) : List α :=
  dedupFirstAux [] l

/-! ### Sentiment engine — src/Backend/src/utils/Sentimentengine.js

The engine spawns a python process and resolves from its `close` / `error`
events; the outcome of the child process is passed explicitly.  `stdout` is
the accumulated (chunk-trimmed) standard output; the promise always resolves
(never rejects), which the model reflects by being a total function. -/

/-- Outcome of the spawned python process. -/
inductive PyOutcome where
  | exited (code : Int) (stdout : String) (stderr : String)
  | startError (msg : String)

/-- The three canonical sentiment labels (`validSentiments` in the source). -/
def validSentiments : List String := ["positive", "neutral", "negative"]

/-- Model of `getSentiment` (Sentimentengine.js lines 4–46): the value the
returned promise resolves with, given the child-process outcome. -/
def getSentiment (_text : String) (out : PyOutcome) : String :=
  match out with
  | .startError _ => "neutral"
  | .exited code result _ =>
    if code = 0 ∧ result ≠ "" then
      if jsToLower result ∈ validSentiments then jsToLower result else "neutral"
    else
      "neutral"

/-! ### Learning-type classifier — feedback.js lines 124–127 and 473–478
(the two variants are textually identical). -/

/-- Model of `getLearningType`; attendance and marks are JS numbers, modelled
as rationals. -/
def getLearningType (attendance marks : ℚ) : String :=
  if 85 ≤ attendance ∧ 75 ≤ marks then "Fast Learner" else "Slow Learner"

/-! ### Insight synthesizers -/

/-- Outcome of the single `fetch` to the generation service, including the
response-body JSON decoding and content extraction:
* `networkError` — the fetch (or `response.json()`) rejected;
* `httpError` — `response.ok` was false, with the status and the body text;
* `ok` — success, carrying the extracted model output text
  (`data?.choices?.[0]?.message?.content || ""` for Groq; the joined
  candidate part texts, before `.trim()`, for Gemini). -/
inductive ServiceOutcome where
  | networkError (msg : String)
  | httpError (status : Nat) (body : String)
  | ok (content : String)

/-- Result of a synthesizer call: how many fetches were attempted, and the
value the returned promise settles with (`Except.error` = rejection). -/
structure CallResult (α : Type) where
  fetchCalls : Nat
  result : Except String α

/-- Insight object built by `callGroqInsights`; the `summary` field is
whatever JSON value `parsed.summary || "Summary not available."` produced
(the source does not force it to be a string). -/
structure GroqInsight where
  summary : Json
  improvementAreas : List String

/-- Insight object built by `callGeminiInsights` (always string-valued). -/
structure GeminiInsight where
  summary : String
  improvementAreas : List String
deriving DecidableEq

/-- The trim-and-filter sanitization shared by both synthesizers
(feedback.js lines 95–97 and 434–436): non-strings become `""` and are then
dropped together with strings that are empty after trimming. -/
def trimFilterAreas (raw : List Json) : List String :=
  (raw.map (fun v => match v with | .str s => jsTrim s | _ => "")).filter
    (fun s => s ≠ "")

/-- Placeholder used by `callGroqInsights` when sanitization leaves nothing. -/
def groqAreasPlaceholder : String := "Groq did not return improvement areas"

/-- Improvement-area cleanup of `callGroqInsights` (lines 91–101): sanitize,
then deduplicate via `Array.from(new Set(cleaned))`, else the placeholder. -/
def groqSanitizeAreas (raw : List Json) : List String :=
  if trimFilterAreas raw = [] then [groqAreasPlaceholder]
  else dedupFirst (trimFilterAreas raw)

/-- Improvement-area cleanup of `callGeminiInsights` (lines 434–436):
sanitize only — the Gemini variant has no deduplication step. -/
def geminiSanitizeAreas (raw : List Json) : List String :=
  trimFilterAreas raw

/-- The Groq parse ladder (lines 80–87): `JSON.parse` the output directly;
on failure extract the brace-bounded slice and `JSON.parse` it (this second
parse is *not* wrapped in a try, so its failure rejects with a syntax error);
with no slice, reject with "Invalid Groq JSON". -/
def groqParse (outputText : String) : Except String Json :=
  match jsonParse outputText with
  | some v => .ok v
  | none =>
    match braceSlice outputText with
    | none => .error "Invalid Groq JSON"
    | some sub =>
      match jsonParse sub with
      | some v => .ok v
      | none => .error "Unexpected token in JSON"

/-- `parsed.summary || "Summary not available."` (line 90): the property
value when truthy, else the placeholder (an absent property is falsy). -/
def groqSummaryOf (parsed : Json) : Json :=
  match parsed.get? "summary" with
  | some v => if v.truthy then v else .str "Summary not available."
  | none => .str "Summary not available."

/-- `Array.isArray(parsed.improvementAreas) ? parsed.improvementAreas : []`
(lines 92–94). -/
def groqAreasRawOf (parsed : Json) : List Json :=
  match parsed.get? "improvementAreas" with
  | some (.arr xs) => xs
  | _ => []

/-- Body of `callGroqInsights` after a successful fetch with extracted
output `outputText` (lines 76–102).  Reading `.summary` off a parsed `null`
throws a TypeError in JS, rejecting the promise. -/
def groqBuild (outputText : String) : Except String GroqInsight :=
  if outputText = "" then .error "Empty Groq response"
  else
    match groqParse outputText with
    | .error e => .error e
    | .ok parsed =>
      match parsed with
      | .null => .error "Cannot read properties of null (reading 'summary')"
      | _ => .ok ⟨groqSummaryOf parsed, groqSanitizeAreas (groqAreasRawOf parsed)⟩

/-- Model of `callGroqInsights` (lines 23–103): missing key rejects without a
fetch; otherwise exactly one fetch is attempted and a non-ok status rejects
with "Groq API failed", a network failure propagates, and a success runs
`groqBuild` on the extracted output. -/
def callGroqInsights (key : Option String) (_texts : List String)
    (svc : ServiceOutcome) : CallResult GroqInsight :=
  match key with
  | none => ⟨0, .error "Groq API key missing on server"⟩
  | some _ =>
    match svc with
    | .networkError m => ⟨1, .error m⟩
    | .httpError _ _ => ⟨1, .error "Groq API failed"⟩
    | .ok content => ⟨1, groqBuild content⟩

/-- The Gemini `tryParse` ladder (lines 410–424): direct `JSON.parse`, else
brace slice with an inner try (failure yields `null`, never a throw). -/
def tryParse (txt : String) : Option Json :=
  match jsonParse txt with
  | some v => some v
  | none =>
    match braceSlice txt with
    | some sub => jsonParse sub
    | none => none

/-- `typeof parsed.summary === "string" ? parsed.summary.trim() : ""`
(line 428). -/
def geminiSummaryOf (parsed : Json) : String :=
  match parsed.get? "summary" with
  | some (.str s) => jsTrim s
  | _ => ""

/-- The synonym-accepting array pick of lines 429–433: `improvementAreas`
if it is an array, else `areas` if it is an array, else `[]`. -/
def geminiAreasRawOf (parsed : Json) : List Json :=
  match parsed.get? "improvementAreas" with
  | some (.arr xs) => xs
  | _ =>
    match parsed.get? "areas" with
    | some (.arr xs) => xs
    | _ => []

/-- Lines 427–446: the structured-result branch for a parsed object-like
value, with `outputText` as the prose fallback when both fields are empty. -/
def geminiStructured (parsed : Json) (outputText : String) : GeminiInsight :=
  if geminiSummaryOf parsed ≠ "" ∨
      geminiSanitizeAreas (geminiAreasRawOf parsed) ≠ [] then
    ⟨if geminiSummaryOf parsed ≠ "" then geminiSummaryOf parsed
      else "Summary not returned by Gemini.",
     if geminiSanitizeAreas (geminiAreasRawOf parsed) ≠ [] then
       geminiSanitizeAreas (geminiAreasRawOf parsed)
     else ["Gemini did not return improvement areas."]⟩
  else ⟨outputText, []⟩

/-- Lines 426–451 after `outputText` is known non-empty: the structured
branch when `tryParse` produced an object-like value, else the prose
fallback `{ improvementAreas: [], summary: outputText }`. -/
def geminiParsedCase (parsedOpt : Option Json) (outputText : String) :
    GeminiInsight :=
  match parsedOpt with
  | some parsed =>
    if parsed.isObjLike then geminiStructured parsed outputText
    else ⟨outputText, []⟩
  | none => ⟨outputText, []⟩

/-- Body of `callGeminiInsights` after a successful fetch, given the joined
candidate text `rawContent` (lines 396–451); total — no path throws. -/
def geminiBuild (rawContent : String) : GeminiInsight :=
  if jsTrim rawContent = "" then
    ⟨"Gemini did not return any text to summarize.", ["Gemini returned no content."]⟩
  else
    geminiParsedCase (tryParse (jsTrim rawContent)) (jsTrim rawContent)

/-- The configuration-error placeholder of `callGeminiInsights`. -/
def geminiKeyMissing : GeminiInsight :=
  ⟨"Gemini API key is missing on the server; please set GEMINI_API_KEY.",
   ["Gemini API key not configured on server."]⟩

/-- The "not enough data" placeholder of `callGeminiInsights`. -/
def geminiNotEnough : GeminiInsight :=
  ⟨"More feedback is needed to generate a summary.",
   ["Not enough feedback to analyze yet."]⟩

/-- Model of `callGeminiInsights` (lines 342–452).  Note the order of the
guards: the missing-key check (lines 343–348) precedes the empty-texts check
(lines 350–355).  A non-ok HTTP status rejects with the body text (or the
status text when the body is empty); a network failure propagates. -/
def callGeminiInsights (key : Option String) (texts : List String)
    (svc : ServiceOutcome) : CallResult GeminiInsight :=
  match key with
  | none => ⟨0, .ok geminiKeyMissing⟩
  | some _ =>
    if texts.isEmpty then ⟨0, .ok geminiNotEnough⟩
    else
      match svc with
      | .networkError m => ⟨1, .error m⟩
      | .httpError _ body => ⟨1, .error (if body = "" then "HTTP error" else body)⟩
      | .ok content => ⟨1, .ok (geminiBuild content)⟩

/-! ### Data model -/

/-- The fixed-shape responses mapping of a feedback record. -/
structure Responses where
  teachingQuality : String
  clarity : String
  support : String
  engagement : String
  additionalComments : String
deriving DecidableEq

/-- Creation timestamp: calendar year and month (`$month` reads the month
component), plus an opaque sub-month tick used only for recency ordering. -/
structure DateTime where
  year : Nat
  month : Nat
  tick : Nat
deriving DecidableEq

/-- A stored Feedback document (models/Feedback.js).  `learningType` is a
nullable, possibly absent field: `none` = field absent, `some none` = stored
`null`, `some (some s)` = stored string `s`. -/
structure FeedbackDoc where
  userId : Nat
  category : String
  teacherId : Option Nat
  responses : Responses
  sentiment : String
  learningType : Option (Option String)
  createdAt : DateTime
deriving DecidableEq

/-- A stored User document (models/User.js), with the fields the feedback
routes read and write. -/
structure User where
  id : Nat
  username : String
  role : String
  attendance : ℚ
  marks : ℚ
  learningType : Option String
deriving DecidableEq

/-- The feedback text blob assembled by the routes from one record's
responses (feedback.js lines 158–164, 221–227, 619–627). -/
def feedbackText (r : Responses) : String :=
  "\nTeaching Quality: " ++ r.teachingQuality ++
  "\nClarity: " ++ r.clarity ++
  "\nSupport: " ++ r.support ++
  "\nEngagement: " ++ r.engagement ++
  "\nComments: " ++ r.additionalComments ++ "\n"

/-! ### Aggregation -/

/-- Recency order on creation times (newest strictly first is not required;
`sort({createdAt: -1})` is a non-strict descending sort). -/
def dtLe (a b : DateTime) : Bool :=
  a.year < b.year ||
    (a.year = b.year &&
      (a.month < b.month || (a.month = b.month && a.tick ≤ b.tick)))

/-- Insertion step of the descending-by-`createdAt` sort. -/
def insertDesc (f : FeedbackDoc) : List FeedbackDoc → List FeedbackDoc
  | [] => [f]
  | g :: gs =>
    if dtLe g.createdAt f.createdAt then f :: g :: gs else g :: insertDesc f gs

/-- Model of `.sort({createdAt: -1})`. -/
def sortByCreatedDesc (fs : List FeedbackDoc) : List FeedbackDoc :=
  fs.foldr insertDesc []

/-- Insertion step of the ascending month sort (`$sort: {"_id": 1}`). -/
def insertAsc (m : Nat) : List Nat → List Nat
  | [] => [m]
  | x :: xs => if m ≤ x then m :: x :: xs else x :: insertAsc m xs

/-- Ascending sort of the distinct month keys. -/
def sortAsc (l : List Nat) : List Nat :=
  l.foldr insertAsc []

/-- Number of scoped records created in calendar month `m` (any year) —
the `$group` count for key `m`. -/
def countMonth (fs : List FeedbackDoc) (m : Nat) : Nat :=
  (fs.filter (fun f => f.createdAt.month = m)).length

/-- Model of the `monthlyTrendPipeline` (lines 592–615) before the label
projection: `$group` by `$month` of `createdAt` produces one bucket per
distinct month key present, with its record count, and `$sort` orders the
buckets ascending by month number. -/
def trendNums (fs : List FeedbackDoc) : List (Nat × Nat) :=
  (sortAsc (dedupFirst (fs.map (fun f => f.createdAt.month)))).map
    (fun m => (m, countMonth fs m))

/-- The `$project` label step (`monthsInYear` / `$arrayElemAt` with index
`month - 1`). -/
def monthLabel (m : Nat) : String :=
  (["Jan", "Feb", "Mar", "Apr", "May", "Jun", "Jul", "Aug", "Sep", "Oct",
    "Nov", "Dec"]).getD (m - 1) ""

/-- Per-sentiment counts (the `forEach` of variant 1 and the `$cond`-based
`$group` of variant 2 both count exact matches of the three labels). -/
def countSentiment (fs : List FeedbackDoc) (label : String) : Nat :=
  (fs.filter (fun f => f.sentiment = label)).length

/-! ### Teacher stats — variant 1 (Groq, lines 194–276) -/

/-- Placeholder substituted by the variant-1 backstop for a missing/blank
summary (line 257). -/
def groqSummaryBackstop : String :=
  "AI did not return a summary. Try adding more detailed feedback."

/-- Placeholder substituted by the variant-1 backstop for an empty
improvement-areas array (line 260). -/
def groqAreasBackstop : String :=
  "AI did not return improvement areas. Try adding more detailed feedback."

/-- The variant-1 backstop (lines 255–261), modelling JS semantics exactly:
`!aiOutput.summary` tests truthiness; `aiOutput.summary.trim()` throws a
TypeError when the summary is a truthy non-string, which the route's `catch`
turns into a 500. -/
def backstopSummary (j : Json) : Except String Json :=
  if j.truthy = false then .ok (.str groqSummaryBackstop)
  else
    match j with
    | .str s => .ok (if jsTrim s = "" then .str groqSummaryBackstop else .str s)
    | _ => .error "aiOutput.summary.trim is not a function"

/-- The two backstop statements in sequence (summary first — its TypeError,
when thrown, prevents the improvement-areas fix-up from running). -/
def applyBackstop (ins : GroqInsight) : Except String GroqInsight :=
  match backstopSummary ins.summary with
  | .error e => .error e
  | .ok sum =>
    .ok ⟨sum, if ins.improvementAreas = [] then [groqAreasBackstop]
              else ins.improvementAreas⟩

/-- The JSON body sent by the variant-1 stats route (line 263–271). -/
structure StatsResponseG where
  totalFeedback : Nat
  positive : Nat
  neutral : Nat
  negative : Nat
  improvementAreas : List String
  summary : Json
  feedbacks : List FeedbackDoc

/-- The scoped record set of variant 1: `category: "teacher"` and the
caller's id, newest first. -/
def groqScoped (teacherId : Nat) (all : List FeedbackDoc) : List FeedbackDoc :=
  sortByCreatedDesc
    (all.filter (fun f => f.category = "teacher" && f.teacherId = some teacherId))

/-- The `aiOutput` value of variant 1 right before the backstop (lines
229–253): the initial/<no-feedback> placeholder, the `catch`'s error-flavored
placeholder (`err.message || "unknown error"`), or the synthesizer's result;
paired with the number of fetches attempted. -/
def groqAiRaw (key : Option String) (texts : List String)
    (svc : ServiceOutcome) : Nat × GroqInsight :=
  if 1 ≤ texts.length then
    let g := callGroqInsights key texts svc
    (g.fetchCalls,
      match g.result with
      | .ok r => r
      | .error m =>
        ⟨.str ("Groq error: " ++ (if m = "" then "unknown error" else m)), []⟩)
  else
    (0, ⟨.str "No feedback yet to analyze.", []⟩)

/-- Model of the variant-1 `GET /teacher/stats` handler (lines 194–276) for
an authenticated teacher, given the stored records and the service outcome.
Returns the fetch count and either the 200 body or (`Except.error`) the
500 path taken when the backstop throws. -/
def statsRouteGroq (key : Option String) (teacherId : Nat)
    (all : List FeedbackDoc) (svc : ServiceOutcome) :
    Nat × Except String StatsResponseG :=
  let scopedFs := groqScoped teacherId all
  let texts := scopedFs.map (fun f => feedbackText f.responses)
  let call := groqAiRaw key texts svc
  (call.1,
    (applyBackstop call.2).map (fun ai =>
      { totalFeedback := scopedFs.length
        positive := countSentiment scopedFs "positive"
        neutral := countSentiment scopedFs "neutral"
        negative := countSentiment scopedFs "negative"
        improvementAreas := ai.improvementAreas
        summary := ai.summary
        feedbacks := scopedFs.take 5 }))

/-! ### Teacher stats — variant 2 (Gemini, lines 544–661) -/

/-- The `matchQuery` of the variant-2 stats route (lines 553–566), applied
to one stored document: base scope `category: "teacher"` plus the caller's
id, refined by the optional `learningType` query parameter.  "Fast Learner"
demands the exact stored string; "Slow Learner" also matches documents whose
field is absent or `null`; any other value (or no parameter) adds nothing. -/
def matchesQuery (param : Option String) (teacherId : Nat)
    (f : FeedbackDoc) : Bool :=
  f.category = "teacher" && f.teacherId = some teacherId &&
    (if param = some "Fast Learner" then
       f.learningType = some (some "Fast Learner")
     else if param = some "Slow Learner" then
       f.learningType = some (some "Slow Learner") || f.learningType = none ||
         f.learningType = some none
     else true)

/-- The scoped record set of variant 2 (in stored order; the `$group` of the
stats pipeline and the trend pipeline both range over exactly this set). -/
def geminiScoped (param : Option String) (teacherId : Nat)
    (all : List FeedbackDoc) : List FeedbackDoc :=
  all.filter (matchesQuery param teacherId)

/-- The JSON body sent by the variant-2 stats route (lines 646–655). -/
structure StatsResponseM where
  totalFeedback : Nat
  positive : Nat
  neutral : Nat
  negative : Nat
  improvementAreas : List String
  summary : String
  feedbacks : List FeedbackDoc
  monthlyTrend : List (String × Nat)

/-- The `aiOutput` value of variant 2 (lines 629–644): the initial
"not enough data" placeholder when no text is available, the `catch`'s
error-flavored placeholder, or the synthesizer's result; paired with the
number of fetches attempted. -/
def geminiAiRaw (key : Option String) (texts : List String)
    (svc : ServiceOutcome) : Nat × GeminiInsight :=
  if 0 < texts.length then
    let g := callGeminiInsights key texts svc
    (g.fetchCalls,
      match g.result with
      | .ok r => r
      | .error m =>
        ⟨"Gemini could not generate a summary.",
         ["Gemini error: " ++ (if m = "" then "Unknown error" else m)]⟩)
  else
    (0, ⟨"Not enough data for a summary.", ["Not enough data for analysis."]⟩)

/-- Model of the variant-2 `GET /teacher/stats` handler (lines 544–661) for
an authenticated teacher: fetch count plus the 200 body.  Every service
outcome is absorbed by the `try`/`catch` around `callGeminiInsights`
(lines 634–644), so the handler is total once the record set is readable. -/
def statsRouteGemini (key : Option String) (param : Option String)
    (teacherId : Nat) (all : List FeedbackDoc) (svc : ServiceOutcome) :
    Nat × StatsResponseM :=
  let scopedFs := geminiScoped param teacherId all
  let texts := scopedFs.map (fun f => feedbackText f.responses)
  let call := geminiAiRaw key texts svc
  (call.1,
    { totalFeedback := scopedFs.length
      positive := countSentiment scopedFs "positive"
      neutral := countSentiment scopedFs "neutral"
      negative := countSentiment scopedFs "negative"
      improvementAreas := call.2.improvementAreas
      summary := call.2.summary
      feedbacks := (sortByCreatedDesc scopedFs).take 5
      monthlyTrend := (trendNums scopedFs).map (fun p => (monthLabel p.1, p.2)) })

/-! ### Submit feedback — `POST /` (lines 132–189 and 483–539; the two
variants are behaviourally identical) -/

/-- Externally visible effects performed by the submit handler, in order. -/
inductive Effect where
  | saveUser (u : User)
  | classifySentiment (text : String)
  | saveFeedback (f : FeedbackDoc)
deriving DecidableEq

/-- The parsed request body.  `teacherId` models
`req.body.teacherId`: `none` = absent, `some none` = present but not a valid
ObjectId, `some (some n)` = valid. -/
structure SubmitReq where
  category : String
  responses : Responses
  teacherId : Option (Option Nat)
deriving DecidableEq

/-- The 201 body of a successful submission. -/
structure SubmitResp where
  sentiment : String
  learningType : String
  feedback : FeedbackDoc
deriving DecidableEq

/-- Model of the `POST /` handler: given the body, the authenticated user id,
the result of `User.findById`, the sentiment-backend outcome and the server
clock, produce either an error status/message or the ordered effect trace
together with the 201 body. -/
def submitFeedback (req : SubmitReq) (userId : Nat) (student? : Option User)
    (py : PyOutcome) (now : DateTime) :
    Except (Nat × String) (List Effect × SubmitResp) :=
  if req.teacherId = some none then
    .error (400, "Invalid teacherId")
  else
    match student? with
    | none => .error (404, "User not found")
    | some student =>
      if student.role = "student" ∧ student.attendance < 75 then
        .error (403, "Attendance criteria not met for feedback submission")
      else
        let learningType := getLearningType student.attendance student.marks
        let student' := { student with learningType := some learningType }
        let text := feedbackText req.responses
        let sentiment := getSentiment text py
        let fb : FeedbackDoc :=
          { userId := userId
            category := req.category
            teacherId :=
              if req.category = "teacher" then
                match req.teacherId with
                | some (some n) => some n
                | _ => none
              else none
            responses := req.responses
            sentiment := sentiment
            learningType := some (some learningType)
            createdAt := now }
        .ok ([.saveUser student', .classifySentiment text, .saveFeedback fb],
             ⟨sentiment, learningType, fb⟩)

/-! ### Helper lemmas: strings and trimming -/

lemma string_eq_empty_iff_data (s : String) : s = "" ↔ s.data = [] := by
  constructor
  · intro h; rw [h]
  · intro h; apply String.ext; rw [h]

lemma string_ne_empty_of_mem {s : String} {c : Char} (hc : c ∈ s.data) :
    s ≠ "" := by
  intro h
  rw [string_eq_empty_iff_data] at h
  rw [h] at hc
  exact List.not_mem_nil c hc

lemma append_ne_empty_left {s t : String} (h : s ≠ "") : s ++ t ≠ "" := by
  intro hc
  rw [string_eq_empty_iff_data, String.data_append, List.append_eq_nil] at hc
  exact h (by rw [string_eq_empty_iff_data]; exact hc.1)

lemma jsTrimList_eq_nil_iff (l : List Char) :
    jsTrimList l = [] ↔ ∀ c ∈ l, isWsChar c := by
  unfold jsTrimList
  rw [List.reverse_eq_nil_iff, List.dropWhile_eq_nil_iff]
  constructor
  · intro h c hc
    by_cases hw : isWsChar c
    · exact hw
    · -- a non-whitespace character survives the left trim
      have hmem : c ∈ l.dropWhile isWsChar := by
        by_contra hnot
        have := List.takeWhile_append_dropWhile (p := isWsChar) (l := l)
        rw [← this] at hc
        rcases List.mem_append.mp hc with h1 | h2
        · exact hw (List.mem_takeWhile_imp h1)
        · exact hnot h2
      exact absurd (h c (List.mem_reverse.mpr hmem)) hw
  · intro h c hc
    exact h c ((List.dropWhile_sublist isWsChar).subset (List.mem_reverse.mp hc))

lemma jsTrim_data (s : String) : (jsTrim s).data = jsTrimList s.data := rfl

lemma jsTrim_eq_empty_iff (s : String) :
    jsTrim s = "" ↔ ∀ c ∈ s.data, isWsChar c := by
  rw [string_eq_empty_iff_data, jsTrim_data, jsTrimList_eq_nil_iff]

lemma jsTrim_ne_empty {s : String} {c : Char} (hc : c ∈ s.data)
    (hw : isWsChar c = false) : jsTrim s ≠ "" := by
  intro h
  have := (jsTrim_eq_empty_iff s).mp h c hc
  rw [hw] at this
  exact Bool.false_ne_true this

lemma jsTrim_data_sublist (s : String) : List.Sublist (jsTrim s).data s.data := by
  rw [jsTrim_data]
  unfold jsTrimList
  have h1 : List.Sublist ((s.data.dropWhile isWsChar).reverse.dropWhile isWsChar).reverse
      (s.data.dropWhile isWsChar).reverse.reverse :=
    List.Sublist.reverse (List.dropWhile_sublist _)
  rw [List.reverse_reverse] at h1
  exact h1.trans (List.dropWhile_sublist _)

lemma jsTrim_groq_error (m : String) : jsTrim ("Groq error: " ++ m) ≠ "" := by
  apply jsTrim_ne_empty (c := 'G')
  · rw [String.data_append]
    exact List.mem_append_left _ (by decide)
  · decide

lemma groq_error_ne_empty (m : String) : ("Groq error: " ++ m) ≠ "" :=
  append_ne_empty_left (by decide)

lemma gemini_error_ne_empty (m : String) : ("Gemini error: " ++ m) ≠ "" :=
  append_ne_empty_left (by decide)

lemma braceSlice_eq_none {s : String} (h : ('{' : Char) ∉ s.data) :
    braceSlice s = none := by
  unfold braceSlice
  have : s.data.findIdx? (fun c => c = '{') = none := by
    rw [List.findIdx?_eq_none_iff]
    intro c hc
    simp only [decide_eq_false_iff_not]
    intro hcc
    exact h (hcc ▸ hc)
  rw [this]

/-! ### Helper lemmas: first-seen deduplication -/

lemma mem_dedupFirstAux {α : Type} [DecidableEq α] {a : α} :
    ∀ {l seen : List α}, a ∈ dedupFirstAux seen l ↔ (a ∈ l ∧ a ∉ seen) := by
  intro l
  induction l with
  | nil => simp [dedupFirstAux]
  | cons x xs ih =>
    intro seen
    by_cases hx : x ∈ seen
    · rw [dedupFirstAux, if_pos hx, ih]
      constructor
      · rintro ⟨ha, hs⟩
        exact ⟨List.mem_cons_of_mem x ha, hs⟩
      · rintro ⟨ha, hs⟩
        rcases List.mem_cons.mp ha with rfl | ha'
        · exact absurd hx hs
        · exact ⟨ha', hs⟩
    · rw [dedupFirstAux, if_neg hx]
      constructor
      · intro h
        rcases List.mem_cons.mp h with rfl | h'
        · exact ⟨List.mem_cons_self a xs, hx⟩
        · rcases ih.mp h' with ⟨ha, hs⟩
          exact ⟨List.mem_cons_of_mem x ha,
            fun hmem => hs (List.mem_cons_of_mem x hmem)⟩
      · rintro ⟨ha, hs⟩
        rcases List.mem_cons.mp ha with rfl | ha'
        · exact List.mem_cons_self a _
        · by_cases hax : a = x
          · subst hax
            exact List.mem_cons_self a _
          · refine List.mem_cons_of_mem x (ih.mpr ⟨ha', ?_⟩)
            intro h
            rcases List.mem_cons.mp h with rfl | h'
            · exact hax rfl
            · exact hs h'

lemma mem_dedupFirst {α : Type} [DecidableEq α] {a : α} {l : List α} :
    a ∈ dedupFirst l ↔ a ∈ l := by
  unfold dedupFirst
  rw [mem_dedupFirstAux]
  simp

lemma dedupFirstAux_sublist {α : Type} [DecidableEq α] :
    ∀ (l seen : List α), List.Sublist (dedupFirstAux seen l) l := by
  intro l
  induction l with
  | nil => intro seen; simp [dedupFirstAux]
  | cons x xs ih =>
    intro seen
    rw [dedupFirstAux]
    split
    · exact (ih seen).trans (List.sublist_cons_self x xs)
    · exact List.Sublist.cons₂ x (ih (x :: seen))

lemma dedupFirst_sublist {α : Type} [DecidableEq α] (l : List α) :
    List.Sublist (dedupFirst l) l :=
  dedupFirstAux_sublist l []

lemma nodup_dedupFirstAux {α : Type} [DecidableEq α] :
    ∀ (l seen : List α), (dedupFirstAux seen l).Nodup := by
  intro l
  induction l with
  | nil => intro seen; simp [dedupFirstAux]
  | cons x xs ih =>
    intro seen
    rw [dedupFirstAux]
    split
    · exact ih seen
    · refine List.nodup_cons.mpr ⟨?_, ih (x :: seen)⟩
      intro hx
      exact (mem_dedupFirstAux.mp hx).2 (List.mem_cons_self x seen)

lemma nodup_dedupFirst {α : Type} [DecidableEq α] (l : List α) :
    (dedupFirst l).Nodup :=
  nodup_dedupFirstAux l []

lemma dedupFirst_ne_nil {α : Type} [DecidableEq α] {l : List α}
    (h : l ≠ []) : dedupFirst l ≠ [] := by
  cases l with
  | nil => exact absurd rfl h
  | cons x xs =>
    unfold dedupFirst dedupFirstAux
    rw [if_neg (List.not_mem_nil x)]
    exact List.cons_ne_nil _ _

/-! ### Helper lemmas: the ascending month sort -/

lemma insertAsc_perm (m : Nat) (l : List Nat) : List.Perm (insertAsc m l) (m :: l) := by
  induction l with
  | nil => rfl
  | cons x xs ih =>
    rw [insertAsc]
    split
    · exact List.Perm.refl _
    · exact (ih.cons x).trans (List.Perm.swap _ _ _)

lemma sortAsc_perm (l : List Nat) : List.Perm (sortAsc l) l := by
  induction l with
  | nil => exact List.Perm.refl _
  | cons x xs ih => exact (insertAsc_perm x (sortAsc xs)).trans (ih.cons x)

lemma mem_sortAsc {m : Nat} {l : List Nat} : m ∈ sortAsc l ↔ m ∈ l :=
  (sortAsc_perm l).mem_iff

lemma insertAsc_sorted {m : Nat} {l : List Nat}
    (h : l.Pairwise (· ≤ ·)) : (insertAsc m l).Pairwise (· ≤ ·) := by
  induction l with
  | nil => simp [insertAsc]
  | cons x xs ih =>
    rw [insertAsc]
    rcases List.pairwise_cons.mp h with ⟨hx, hxs⟩
    split
    · rename_i hmx
      refine List.pairwise_cons.mpr ⟨?_, h⟩
      intro y hy
      rcases List.mem_cons.mp hy with rfl | hy'
      · exact hmx
      · exact le_trans hmx (hx y hy')
    · rename_i hmx
      push_neg at hmx
      refine List.pairwise_cons.mpr ⟨?_, ih hxs⟩
      intro y hy
      rcases List.mem_cons.mp ((insertAsc_perm m xs).mem_iff.mp hy) with rfl | hy'
      · exact le_of_lt hmx
      · exact hx y hy'

lemma sortAsc_sorted (l : List Nat) : (sortAsc l).Pairwise (· ≤ ·) := by
  induction l with
  | nil => simp [sortAsc]
  | cons x xs ih => exact insertAsc_sorted ih

lemma sortAsc_nodup {l : List Nat} (h : l.Nodup) : (sortAsc l).Nodup :=
  ((sortAsc_perm l).nodup_iff).mpr h

lemma sortAsc_pairwise_lt {l : List Nat} (h : l.Nodup) :
    (sortAsc l).Pairwise (· < ·) := by
  have hs := sortAsc_sorted l
  have hn := sortAsc_nodup h
  exact (hs.and hn).imp (fun hab => lt_of_le_of_ne hab.1 hab.2)

/-! ### Helper lemmas: the monthly trend -/

lemma countMonth_pos {fs : List FeedbackDoc} {m : Nat}
    (h : ∃ f ∈ fs, f.createdAt.month = m) : 1 ≤ countMonth fs m := by
  rcases h with ⟨f, hf, hm⟩
  have : f ∈ fs.filter (fun g => g.createdAt.month = m) :=
    List.mem_filter.mpr ⟨hf, by simp [hm]⟩
  exact List.length_pos.mpr (List.ne_nil_of_mem this)

lemma trendNums_mem {fs : List FeedbackDoc} {m c : Nat}
    (h : (m, c) ∈ trendNums fs) :
    c = countMonth fs m ∧ 1 ≤ c ∧ ∃ f ∈ fs, f.createdAt.month = m := by
  unfold trendNums at h
  rcases List.mem_map.mp h with ⟨m', hm', hpair⟩
  have hm : m' = m := congrArg Prod.fst hpair
  subst hm
  have hc : c = countMonth fs m' := (congrArg Prod.snd hpair).symm
  have hmem : m' ∈ fs.map (fun f => f.createdAt.month) :=
    mem_dedupFirst.mp (mem_sortAsc.mp hm')
  rcases List.mem_map.mp hmem with ⟨f, hf, hfm⟩
  exact ⟨hc, hc ▸ countMonth_pos ⟨f, hf, hfm⟩, f, hf, hfm⟩

lemma trendNums_fst (fs : List FeedbackDoc) :
    (trendNums fs).map Prod.fst =
      sortAsc (dedupFirst (fs.map (fun f => f.createdAt.month))) := by
  unfold trendNums
  rw [List.map_map]
  exact List.map_id'' (fun _ => rfl) _

lemma trendNums_months_iff {fs : List FeedbackDoc} {m : Nat} :
    m ∈ (trendNums fs).map Prod.fst ↔ ∃ f ∈ fs, f.createdAt.month = m := by
  rw [trendNums_fst, mem_sortAsc, mem_dedupFirst, List.mem_map]

lemma trendNums_sorted (fs : List FeedbackDoc) :
    (trendNums fs).Pairwise (fun p q => p.1 < q.1) := by
  unfold trendNums
  rw [List.pairwise_map]
  exact sortAsc_pairwise_lt (nodup_dedupFirst _)

/-! ### Helper lemmas: sanitization and the synthesizers -/

lemma mem_trimFilterAreas {raw : List Json} {a : String}
    (ha : a ∈ trimFilterAreas raw) : a ≠ "" := by
  unfold trimFilterAreas at ha
  have := (List.mem_filter.mp ha).2
  exact of_decide_eq_true this

lemma groqSanitizeAreas_ne_nil (raw : List Json) :
    groqSanitizeAreas raw ≠ [] := by
  unfold groqSanitizeAreas
  split
  · exact List.cons_ne_nil _ _
  · rename_i h
    exact dedupFirst_ne_nil h

lemma groqSanitizeAreas_mem_ne {raw : List Json} {a : String}
    (ha : a ∈ groqSanitizeAreas raw) : a ≠ "" := by
  unfold groqSanitizeAreas at ha
  split at ha
  · rcases List.mem_singleton.mp ha with rfl
    decide
  · exact mem_trimFilterAreas (mem_dedupFirst.mp ha)

lemma groqSanitizeAreas_nodup (raw : List Json) :
    (groqSanitizeAreas raw).Nodup := by
  unfold groqSanitizeAreas
  split
  · exact List.nodup_singleton _
  · exact nodup_dedupFirst _

lemma groqBuild_ok {content : String} {r : GroqInsight}
    (h : groqBuild content = .ok r) :
    ∃ raw, r.improvementAreas = groqSanitizeAreas raw := by
  unfold groqBuild at h
  split at h
  · exact absurd h (by simp)
  · split at h
    · exact absurd h (by simp)
    · split at h
      · exact absurd h (by simp)
      · have := (Except.ok.injEq _ _).mp h
        exact ⟨_, by rw [← this]⟩

lemma callGroqInsights_ok_areas {key : Option String} {texts : List String}
    {svc : ServiceOutcome} {r : GroqInsight}
    (h : (callGroqInsights key texts svc).result = .ok r) :
    r.improvementAreas ≠ [] ∧ ∀ a ∈ r.improvementAreas, a ≠ "" := by
  cases key with
  | none => simp [callGroqInsights] at h
  | some k =>
    cases svc with
    | networkError m => simp [callGroqInsights] at h
    | httpError s b => simp [callGroqInsights] at h
    | ok content =>
      simp only [callGroqInsights] at h
      rcases groqBuild_ok h with ⟨raw, hraw⟩
      rw [hraw]
      exact ⟨groqSanitizeAreas_ne_nil raw, fun a ha => groqSanitizeAreas_mem_ne ha⟩

lemma backstopSummary_ok {j s' : Json} (h : backstopSummary j = .ok s') :
    ∃ s, s' = .str s ∧ jsTrim s ≠ "" := by
  cases j with
  | null =>
    simp only [backstopSummary, Json.truthy] at h
    exact ⟨groqSummaryBackstop, ((Except.ok.injEq _ _).mp h).symm, by decide⟩
  | bool b =>
    cases b with
    | false =>
      simp only [backstopSummary, Json.truthy] at h
      exact ⟨groqSummaryBackstop, ((Except.ok.injEq _ _).mp h).symm, by decide⟩
    | true => simp [backstopSummary, Json.truthy] at h
  | num n =>
    by_cases hn : n = 0
    · subst hn
      simp only [backstopSummary, Json.truthy] at h
      exact ⟨groqSummaryBackstop, ((Except.ok.injEq _ _).mp h).symm, by decide⟩
    · simp [backstopSummary, Json.truthy, hn] at h
  | str s =>
    by_cases hs : s = ""
    · subst hs
      simp only [backstopSummary, Json.truthy] at h
      exact ⟨groqSummaryBackstop, ((Except.ok.injEq _ _).mp h).symm, by decide⟩
    · simp only [backstopSummary, Json.truthy, hs] at h
      by_cases ht : jsTrim s = ""
      · rw [if_neg (by simp [hs]), if_pos ht] at h
        exact ⟨groqSummaryBackstop, ((Except.ok.injEq _ _).mp h).symm, by decide⟩
      · rw [if_neg (by simp [hs]), if_neg ht] at h
        exact ⟨s, ((Except.ok.injEq _ _).mp h).symm, ht⟩
  | arr xs => simp [backstopSummary, Json.truthy] at h
  | obj fs => simp [backstopSummary, Json.truthy] at h

lemma applyBackstop_ok {ins out : GroqInsight}
    (h : applyBackstop ins = .ok out) :
    (∃ s, out.summary = .str s ∧ jsTrim s ≠ "") ∧
      out.improvementAreas ≠ [] ∧
      ∀ a ∈ out.improvementAreas,
        a = groqAreasBackstop ∨ a ∈ ins.improvementAreas := by
  unfold applyBackstop at h
  split at h
  · exact absurd h (by simp)
  · rename_i sum hsum
    have hout := (Except.ok.injEq _ _).mp h
    rcases backstopSummary_ok hsum with ⟨s, rfl, hs⟩
    refine ⟨⟨s, by rw [← hout], hs⟩, ?_, ?_⟩
    · rw [← hout]
      simp only
      split
      · exact List.cons_ne_nil _ _
      · assumption
    · intro a ha
      rw [← hout] at ha
      simp only at ha
      split at ha
      · exact Or.inl (List.mem_singleton.mp ha)
      · exact Or.inr ha

lemma exceptMap_eq_ok {α β : Type} {f : α → β} {x : Except String α} {b : β}
    (h : x.map f = .ok b) : ∃ a, x = .ok a ∧ b = f a := by
  cases x with
  | error e => exact absurd h (by simp [Except.map])
  | ok a => exact ⟨a, rfl, ((Except.ok.injEq _ _).mp h).symm⟩

lemma geminiStructured_summary_ne {parsed : Json} {outputText : String}
    (hne : outputText ≠ "") : (geminiStructured parsed outputText).summary ≠ "" := by
  unfold geminiStructured
  split
  · simp only
    split
    · assumption
    · decide
  · exact hne

lemma geminiStructured_areas_ne {parsed : Json} {outputText a : String}
    (ha : a ∈ (geminiStructured parsed outputText).improvementAreas) :
    a ≠ "" := by
  unfold geminiStructured at ha
  split at ha
  · simp only at ha
    split at ha
    · exact mem_trimFilterAreas ha
    · rcases List.mem_singleton.mp ha with rfl
      decide
  · exact absurd ha (List.not_mem_nil a)

lemma geminiStructured_areas_nil {parsed : Json} {outputText : String}
    (h : (geminiStructured parsed outputText).improvementAreas = []) :
    (geminiStructured parsed outputText).summary = outputText := by
  unfold geminiStructured at h ⊢
  by_cases hc : (geminiSummaryOf parsed ≠ "" ∨
      geminiSanitizeAreas (geminiAreasRawOf parsed) ≠ [])
  · exfalso
    rw [if_pos hc] at h
    simp only at h
    split at h
    · rename_i hx
      exact hx h
    · simp at h
  · rw [if_neg hc]

lemma geminiParsedCase_summary_ne {p : Option Json} {outputText : String}
    (hne : outputText ≠ "") : (geminiParsedCase p outputText).summary ≠ "" := by
  cases p with
  | none => exact hne
  | some parsed =>
    simp only [geminiParsedCase]
    split
    · exact geminiStructured_summary_ne hne
    · exact hne

lemma geminiParsedCase_areas_ne {p : Option Json} {outputText a : String}
    (ha : a ∈ (geminiParsedCase p outputText).improvementAreas) : a ≠ "" := by
  cases p with
  | none => exact absurd ha (List.not_mem_nil a)
  | some parsed =>
    simp only [geminiParsedCase] at ha
    split at ha
    · exact geminiStructured_areas_ne ha
    · exact absurd ha (List.not_mem_nil a)

lemma geminiParsedCase_areas_nil {p : Option Json} {outputText : String}
    (h : (geminiParsedCase p outputText).improvementAreas = []) :
    (geminiParsedCase p outputText).summary = outputText := by
  cases p with
  | none => rfl
  | some parsed =>
    simp only [geminiParsedCase] at h ⊢
    by_cases hobj : parsed.isObjLike
    · rw [if_pos hobj] at h ⊢
      exact geminiStructured_areas_nil h
    · rw [if_neg hobj]

lemma geminiBuild_summary_ne (raw : String) : (geminiBuild raw).summary ≠ "" := by
  unfold geminiBuild
  split
  · decide
  · rename_i hne
    exact geminiParsedCase_summary_ne hne

lemma geminiBuild_areas_ne {raw : String} {a : String}
    (ha : a ∈ (geminiBuild raw).improvementAreas) : a ≠ "" := by
  unfold geminiBuild at ha
  split at ha
  · rcases List.mem_singleton.mp ha with rfl
    decide
  · exact geminiParsedCase_areas_ne ha

lemma geminiBuild_areas_nil {raw : String}
    (h : (geminiBuild raw).improvementAreas = []) :
    (geminiBuild raw).summary = jsTrim raw := by
  unfold geminiBuild at h ⊢
  split at h
  · simp at h
  · rename_i hne
    rw [if_neg hne]
    exact geminiParsedCase_areas_nil h

lemma callGeminiInsights_ok_props {key : Option String} {texts : List String}
    {svc : ServiceOutcome} {r : GeminiInsight}
    (h : (callGeminiInsights key texts svc).result = .ok r) :
    r.summary ≠ "" ∧ (∀ a ∈ r.improvementAreas, a ≠ "") ∧
      (r.improvementAreas = [] → ∃ raw, svc = .ok raw ∧ r.summary = jsTrim raw) := by
  cases key with
  | none =>
    simp only [callGeminiInsights] at h
    rcases (Except.ok.injEq _ _).mp h with rfl
    refine ⟨by decide, ?_, ?_⟩
    · intro a ha
      rcases List.mem_singleton.mp ha with rfl
      decide
    · intro habs
      simp [geminiKeyMissing] at habs
  | some k =>
    by_cases ht : texts.isEmpty
    · simp only [callGeminiInsights, ht, if_pos] at h
      rcases (Except.ok.injEq _ _).mp h with rfl
      refine ⟨by decide, ?_, ?_⟩
      · intro a ha
        rcases List.mem_singleton.mp ha with rfl
        decide
      · intro habs
        simp [geminiNotEnough] at habs
    · cases svc with
      | networkError m => simp [callGeminiInsights, ht] at h
      | httpError s b => simp [callGeminiInsights, ht] at h
      | ok content =>
        simp only [callGeminiInsights, ht, if_neg, Bool.false_eq_true,
          not_false_eq_true] at h
        rcases (Except.ok.injEq _ _).mp h with rfl
        exact ⟨geminiBuild_summary_ne content,
          fun a ha => geminiBuild_areas_ne ha,
          fun hnil => ⟨content, rfl, geminiBuild_areas_nil hnil⟩⟩

lemma geminiAiRaw_props (key : Option String) (texts : List String)
    (svc : ServiceOutcome) :
    (geminiAiRaw key texts svc).2.summary ≠ "" ∧
      ∀ a ∈ (geminiAiRaw key texts svc).2.improvementAreas, a ≠ "" := by
  simp only [geminiAiRaw]
  split
  · split
    · rename_i r heq
      rcases callGeminiInsights_ok_props heq with ⟨h1, h2, _⟩
      exact ⟨h1, h2⟩
    · refine ⟨?_, ?_⟩
      · dsimp only
        decide
      · dsimp only
        intro a ha
        rcases List.mem_singleton.mp ha with rfl
        exact gemini_error_ne_empty _
  · refine ⟨?_, ?_⟩
    · dsimp only
      decide
    · dsimp only
      intro a ha
      rcases List.mem_singleton.mp ha with rfl
      decide

lemma geminiAiRaw_areas_nil {key : Option String} {texts : List String}
    {svc : ServiceOutcome}
    (h : (geminiAiRaw key texts svc).2.improvementAreas = []) :
    ∃ raw, svc = .ok raw ∧ (geminiAiRaw key texts svc).2.summary = jsTrim raw := by
  by_cases hlen : 0 < texts.length
  · simp only [geminiAiRaw, if_pos hlen] at h ⊢
    split at h
    · rename_i r heq
      exact (callGeminiInsights_ok_props heq).2.2 h
    · simp at h
  · simp only [geminiAiRaw, if_neg hlen] at h
    simp at h

lemma groqAiRaw_areas_ne (key : Option String) (texts : List String)
    (svc : ServiceOutcome) :
    ∀ a ∈ (groqAiRaw key texts svc).2.improvementAreas, a ≠ "" := by
  simp only [groqAiRaw]
  split
  · split
    · rename_i r heq
      exact (callGroqInsights_ok_areas heq).2
    · intro a ha
      exact absurd ha (List.not_mem_nil a)
  · intro a ha
    exact absurd ha (List.not_mem_nil a)

lemma statsRouteGroq_ok {key : Option String} {tid : Nat}
    {all : List FeedbackDoc} {svc : ServiceOutcome} {resp : StatsResponseG}
    (h : (statsRouteGroq key tid all svc).2 = .ok resp) :
    (∃ s, resp.summary = .str s ∧ jsTrim s ≠ "") ∧
      resp.improvementAreas ≠ [] ∧
      ∀ a ∈ resp.improvementAreas, a ≠ "" := by
  simp only [statsRouteGroq] at h
  rcases exceptMap_eq_ok h with ⟨ai, hai, hresp⟩
  rcases applyBackstop_ok hai with ⟨⟨s, hsum, hs⟩, hne, hmem⟩
  subst hresp
  refine ⟨⟨s, hsum, hs⟩, hne, ?_⟩
  intro a ha
  rcases hmem a ha with rfl | hins
  · decide
  · exact groqAiRaw_areas_ne _ _ _ a hins

lemma applyBackstop_groq_error (m : String) :
    applyBackstop ⟨.str ("Groq error: " ++ m), []⟩ =
      .ok ⟨.str ("Groq error: " ++ m), [groqAreasBackstop]⟩ := by
  have h1 : ("Groq error: " ++ m) ≠ "" := groq_error_ne_empty m
  have h2 : jsTrim ("Groq error: " ++ m) ≠ "" := jsTrim_groq_error m
  simp [applyBackstop, backstopSummary, Json.truthy, h1, h2]

/-- The service-failure cases of claim C4: missing credential, rejected
fetch, non-success status, or empty extracted output. -/
def groqCallFails (key : Option String) (svc : ServiceOutcome) : Prop :=
  key = none ∨ (∃ m, svc = .networkError m) ∨
    (∃ s b, svc = .httpError s b) ∨ svc = .ok ""

lemma groqAiRaw_failure {key : Option String} {texts : List String}
    {svc : ServiceOutcome} (hT : 1 ≤ texts.length)
    (hfail : groqCallFails key svc) :
    ∃ m, (groqAiRaw key texts svc).2 = ⟨.str ("Groq error: " ++ m), []⟩ := by
  simp only [groqAiRaw, if_pos hT]
  rcases hfail with rfl | ⟨m, rfl⟩ | ⟨s, b, rfl⟩ | rfl
  · exact ⟨"Groq API key missing on server", rfl⟩
  · cases key with
    | none => exact ⟨"Groq API key missing on server", rfl⟩
    | some k =>
      by_cases hm : m = ""
      · subst hm
        exact ⟨"unknown error", by simp [callGroqInsights]⟩
      · exact ⟨m, by simp [callGroqInsights, hm]⟩
  · cases key with
    | none => exact ⟨"Groq API key missing on server", rfl⟩
    | some k => exact ⟨"Groq API failed", by simp [callGroqInsights]⟩
  · cases key with
    | none => exact ⟨"Groq API key missing on server", rfl⟩
    | some k => exact ⟨"Empty Groq response", by simp [callGroqInsights, groqBuild]⟩

lemma statsRouteGroq_failure {key : Option String} {tid : Nat}
    {all : List FeedbackDoc} {svc : ServiceOutcome}
    (hS : groqScoped tid all ≠ []) (hfail : groqCallFails key svc) :
    ∃ m, (statsRouteGroq key tid all svc).2 = .ok
      { totalFeedback := (groqScoped tid all).length
        positive := countSentiment (groqScoped tid all) "positive"
        neutral := countSentiment (groqScoped tid all) "neutral"
        negative := countSentiment (groqScoped tid all) "negative"
        improvementAreas := [groqAreasBackstop]
        summary := .str ("Groq error: " ++ m)
        feedbacks := (groqScoped tid all).take 5 } := by
  have hT : 1 ≤ ((groqScoped tid all).map
      (fun f => feedbackText f.responses)).length := by
    rw [List.length_map]
    exact List.length_pos.mpr hS
  rcases groqAiRaw_failure hT hfail with ⟨m, hm⟩
  refine ⟨m, ?_⟩
  simp only [statsRouteGroq]
  rw [hm, applyBackstop_groq_error]
  rfl

/-! ### Sample data used by concrete counterexamples and witnesses -/

/-- A well-shaped responses mapping. -/
def sampleResponses : Responses :=
  ⟨"Good", "Clear", "Helpful", "Engaging", "None"⟩

/-- A stored teacher-feedback document for teacher 1. -/
def sampleFb : FeedbackDoc :=
  { userId := 2
    category := "teacher"
    teacherId := some 1
    responses := sampleResponses
    sentiment := "positive"
    learningType := some (some "Fast Learner")
    createdAt := ⟨2024, 3, 0⟩ }

/-- A student user already labelled with the pace its snapshot computes. -/
def sampleStudent : User :=
  { id := 2
    username := "alice"
    role := "student"
    attendance := 90
    marks := 80
    learningType := some "Fast Learner" }

/-! ### Claim theorems -/

/-- **C6** (confirmed).  For every attendance and marks in [0,100], the
learner-pace classifier `getLearningType` returns "Fast Learner" exactly when
attendance ≥ 85 and marks ≥ 75, and "Slow Learner" otherwise; at the
boundary, (85, 75) maps to fast while (84, 75) and (85, 74) map to slow. -/
theorem claim_C6_learning_type (a m : ℚ) (h0a : 0 ≤ a) (ha : a ≤ 100)
    (h0m : 0 ≤ m) (hm : m ≤ 100) :
    (getLearningType a m = "Fast Learner" ↔ 85 ≤ a ∧ 75 ≤ m) ∧
    (getLearningType a m = "Slow Learner" ↔ ¬(85 ≤ a ∧ 75 ≤ m)) ∧
    getLearningType 85 75 = "Fast Learner" ∧
    getLearningType 84 75 = "Slow Learner" ∧
    getLearningType 85 74 = "Slow Learner" := by
  have hstr : ("Slow Learner" : String) ≠ "Fast Learner" := by decide
  have hstr' : ("Fast Learner" : String) ≠ "Slow Learner" := by decide
  refine ⟨?_, ?_, by decide, by decide, by decide⟩
  · unfold getLearningType
    split_ifs with h
    · exact ⟨fun _ => h, fun _ => rfl⟩
    · exact ⟨fun he => absurd he hstr, fun hc => absurd hc h⟩
  · unfold getLearningType
    split_ifs with h
    · exact ⟨fun he => absurd he hstr', fun hn => absurd h hn⟩
    · exact ⟨fun _ => h, fun _ => rfl⟩

theorem claim_C6_witness :
    (0 ≤ (90 : ℚ)) ∧ (90 : ℚ) ≤ 100 ∧ (0 ≤ (80 : ℚ)) ∧ (80 : ℚ) ≤ 100 ∧
      ((getLearningType 90 80 = "Fast Learner" ↔ 85 ≤ (90 : ℚ) ∧ 75 ≤ (80 : ℚ)) ∧
        (getLearningType 90 80 = "Slow Learner" ↔ ¬(85 ≤ (90 : ℚ) ∧ 75 ≤ (80 : ℚ))) ∧
        getLearningType 85 75 = "Fast Learner" ∧
        getLearningType 84 75 = "Slow Learner" ∧
        getLearningType 85 74 = "Slow Learner") :=
  ⟨by decide, by decide, by decide, by decide,
    claim_C6_learning_type 90 80 (by decide) (by decide) (by decide) (by decide)⟩

/-- **C7** (confirmed).  For every input text and backend outcome, the
sentiment engine resolves with one of the three canonical labels and never
rejects (the model is a total function); a clean label is matched
case-insensitively (via `.toLowerCase()`), and every failure — nonzero exit,
empty output, non-enumerated label, or process-start error — yields
"neutral". -/
theorem claim_C7_sentiment_total (text : String) (out : PyOutcome) :
    getSentiment text out ∈ validSentiments ∧
    (∀ code result err, out = .exited code result err → code = 0 →
      result ≠ "" → jsToLower result ∈ validSentiments →
      getSentiment text out = jsToLower result) ∧
    (∀ code result err, out = .exited code result err →
      (code ≠ 0 ∨ result = "" ∨ jsToLower result ∉ validSentiments) →
      getSentiment text out = "neutral") ∧
    (∀ msg, out = .startError msg → getSentiment text out = "neutral") := by
  refine ⟨?_, ?_, ?_, ?_⟩
  · cases out with
    | startError msg => simp [getSentiment, validSentiments]
    | exited code result err =>
      by_cases h1 : code = 0 ∧ result ≠ ""
      · by_cases h2 : jsToLower result ∈ validSentiments
        · simp only [getSentiment, if_pos h1, if_pos h2]
          exact h2
        · simp only [getSentiment, if_pos h1, if_neg h2]
          decide
      · simp only [getSentiment, if_neg h1]
        decide
  · rintro code result err rfl hc hr hmem
    simp [getSentiment, hc, hr, hmem]
  · rintro code result err rfl hfail
    rcases hfail with hc | hr | hmem
    · simp only [getSentiment]
      rw [if_neg (fun hand => hc hand.1)]
    · simp only [getSentiment]
      rw [if_neg (fun hand => hand.2 hr)]
    · by_cases h1 : code = 0 ∧ result ≠ ""
      · simp only [getSentiment, if_pos h1, if_neg hmem]
      · simp only [getSentiment, if_neg h1]
  · rintro msg rfl
    rfl

theorem claim_C7_witness :
    getSentiment "" (PyOutcome.exited 0 "POSitive" "") ∈ validSentiments ∧
      getSentiment "" (PyOutcome.exited 0 "POSitive" "") = "positive" ∧
      getSentiment "" (PyOutcome.exited 1 "positive" "boom") = "neutral" ∧
      getSentiment "" (PyOutcome.startError "spawn failed") = "neutral" := by
  refine ⟨(claim_C7_sentiment_total "" (.exited 0 "POSitive" "")).1, ?_, ?_, ?_⟩
  · have h := (claim_C7_sentiment_total "" (.exited 0 "POSitive" "")).2.1
      0 "POSitive" "" rfl rfl (by decide) (by decide)
    rw [h]
    decide
  · exact (claim_C7_sentiment_total "" (.exited 1 "positive" "boom")).2.2.1
      1 "positive" "boom" rfl (Or.inl (by decide))
  · exact (claim_C7_sentiment_total "" (.startError "spawn failed")).2.2.2
      "spawn failed" rfl

/-- **C9** (confirmed).  Every successful submission saves the user record
with `learningType` overwritten by the freshly computed pace label — first in
the effect order, before the sentiment classification and the feedback save —
and it does so unconditionally, independent of the previously stored label
(the witness exercises the unchanged-label case). -/
theorem claim_C9_submit_overwrites (req : SubmitReq) (userId : Nat)
    (student : User) (py : PyOutcome) (now : DateTime)
    (hTid : req.teacherId ≠ some none)
    (hGuard : ¬(student.role = "student" ∧ student.attendance < 75)) :
    ∃ fb resp,
      submitFeedback req userId (some student) py now =
        .ok ([Effect.saveUser
                { student with
                    learningType := some (getLearningType student.attendance student.marks) },
              Effect.classifySentiment (feedbackText req.responses),
              Effect.saveFeedback fb], resp) := by
  unfold submitFeedback
  rw [if_neg hTid]
  dsimp only
  rw [if_neg hGuard]
  exact ⟨_, _, rfl⟩

theorem claim_C9_witness :
    (({ category := "teacher", responses := sampleResponses,
        teacherId := some (some 7) } : SubmitReq).teacherId ≠ some none) ∧
      ¬(sampleStudent.role = "student" ∧ sampleStudent.attendance < 75) ∧
      sampleStudent.learningType =
        some (getLearningType sampleStudent.attendance sampleStudent.marks) ∧
      ∃ fb resp,
        submitFeedback
            { category := "teacher", responses := sampleResponses,
              teacherId := some (some 7) } 2 (some sampleStudent)
            (.exited 0 "positive" "") ⟨2024, 5, 1⟩ =
          .ok ([Effect.saveUser
                  { sampleStudent with
                      learningType := some (getLearningType sampleStudent.attendance sampleStudent.marks) },
                Effect.classifySentiment (feedbackText sampleResponses),
                Effect.saveFeedback fb], resp) :=
  ⟨by decide, by decide, by decide,
    claim_C9_submit_overwrites _ 2 sampleStudent (.exited 0 "positive" "")
      ⟨2024, 5, 1⟩ (by decide) (by decide)⟩

/-- **C10** (confirmed).  The `learningType` query filter of the variant-2
stats route is asymmetric: "Fast Learner" matches only documents whose stored
field equals "Fast Learner", while "Slow Learner" also matches documents
whose field is absent or `null`; any other parameter value (or no parameter)
leaves the base teacher scope unfiltered. -/
theorem claim_C10_filter_asymmetry (f : FeedbackDoc) (tid : Nat)
    (hc : f.category = "teacher") (ht : f.teacherId = some tid) :
    (matchesQuery (some "Fast Learner") tid f = true ↔
      f.learningType = some (some "Fast Learner")) ∧
    (matchesQuery (some "Slow Learner") tid f = true ↔
      (f.learningType = some (some "Slow Learner") ∨ f.learningType = none ∨
        f.learningType = some none)) ∧
    (∀ p : Option String, p ≠ some "Fast Learner" → p ≠ some "Slow Learner" →
      matchesQuery p tid f = true) ∧
    matchesQuery (some "Slow Learner") tid { f with learningType := none } = true ∧
    matchesQuery (some "Fast Learner") tid { f with learningType := none } = false := by
  refine ⟨?_, ?_, ?_, ?_, ?_⟩
  · simp [matchesQuery, hc, ht]
  · simp [matchesQuery, hc, ht]
    tauto
  · intro p hpf hps
    simp [matchesQuery, hc, ht, hpf, hps]
  · simp [matchesQuery, hc, ht]
  · simp [matchesQuery, hc, ht]

theorem claim_C10_witness :
    (sampleFb.category = "teacher") ∧ (sampleFb.teacherId = some 1) ∧
      ((matchesQuery (some "Fast Learner") 1 sampleFb = true ↔
          sampleFb.learningType = some (some "Fast Learner")) ∧
        (matchesQuery (some "Slow Learner") 1 sampleFb = true ↔
          (sampleFb.learningType = some (some "Slow Learner") ∨
            sampleFb.learningType = none ∨ sampleFb.learningType = some none)) ∧
        (∀ p : Option String, p ≠ some "Fast Learner" →
          p ≠ some "Slow Learner" → matchesQuery p 1 sampleFb = true) ∧
        matchesQuery (some "Slow Learner") 1
          { sampleFb with learningType := none } = true ∧
        matchesQuery (some "Fast Learner") 1
          { sampleFb with learningType := none } = false) :=
  ⟨by decide, by decide, claim_C10_filter_asymmetry sampleFb 1 (by decide) (by decide)⟩

/-- The member names of the object literal the variant-1 stats handler
passes to `res.json` (lines 263–271), in source order: seven members, with
no `monthlyTrend` among them.  The list is the same for every response
value, because the handler always emits this one object literal. -/
def StatsResponseG.jsonKeys (_r : StatsResponseG) : List String :=
  ["totalFeedback", "positive", "neutral", "negative", "improvementAreas",
   "summary", "feedbacks"]

/-- The member names of the object literal the variant-2 stats handler
passes to `res.json` (lines 646–655), in source order — these do include
`monthlyTrend`. -/
def StatsResponseM.jsonKeys (_r : StatsResponseM) : List String :=
  ["totalFeedback", "positive", "neutral", "negative", "improvementAreas",
   "summary", "feedbacks", "monthlyTrend"]

/-- The concrete variant-1 response returned for one scoped record when the
service is unreachable, used by the C8 counterexample. -/
def c8GroqResp : StatsResponseG :=
  { totalFeedback := 1
    positive := 1
    neutral := 0
    negative := 0
    improvementAreas := [groqAreasBackstop]
    summary := .str "Groq error: down"
    feedbacks := [sampleFb] }

/-- **C8 counterexample**.  As stated the claim is false over its cited
scope: for a concrete scoped record set the Groq-variant stats handler
(response object at lines 263–271) returns a response whose JSON body has no
`monthlyTrend` member at all, while the variant-2 body does carry one. -/
theorem claim_C8_counterexample :
    (statsRouteGroq (some "k") 1 [sampleFb] (.networkError "down")).2 =
      .ok c8GroqResp ∧
    "monthlyTrend" ∉ c8GroqResp.jsonKeys ∧
    "monthlyTrend" ∈ (statsRouteGemini (some "k") none 1 [sampleFb]
      (.networkError "down")).2.jsonKeys := by
  exact ⟨rfl, by decide, by decide⟩

/-- **C8** (corrected).  Amended claim: the Gemini-variant stats response
carries a monthly trend that buckets the scoped records by calendar
month-of-year of `createdAt` (the count for month m includes records of
every year), contains an entry exactly for the months with at least one
record — each with count ≥ 1, never zero — and is sorted strictly ascending
by month number; the Groq-variant stats response contains no `monthlyTrend`
member at all, for any scoped record set. -/
theorem claim_C8_amended (key param : Option String) (tid : Nat)
    (all : List FeedbackDoc) (svc : ServiceOutcome) :
    (statsRouteGemini key param tid all svc).2.monthlyTrend =
      (trendNums (geminiScoped param tid all)).map
        (fun p => (monthLabel p.1, p.2)) ∧
    (∀ m c, (m, c) ∈ trendNums (geminiScoped param tid all) →
      c = countMonth (geminiScoped param tid all) m ∧ 1 ≤ c) ∧
    (∀ m, m ∈ (trendNums (geminiScoped param tid all)).map Prod.fst ↔
      ∃ f ∈ geminiScoped param tid all, f.createdAt.month = m) ∧
    (trendNums (geminiScoped param tid all)).Pairwise
      (fun p q => p.1 < q.1) ∧
    (∀ resp : StatsResponseG, (statsRouteGroq key tid all svc).2 = .ok resp →
      "monthlyTrend" ∉ resp.jsonKeys) := by
  refine ⟨rfl, ?_, ?_, trendNums_sorted _, ?_⟩
  · intro m c hmc
    rcases trendNums_mem hmc with ⟨hc, hpos, _⟩
    exact ⟨hc, hpos⟩
  · intro m
    exact trendNums_months_iff
  · intro resp _
    simp [StatsResponseG.jsonKeys]

/-- A second stored document: same teacher, an earlier year, month 1. -/
def sampleFb2 : FeedbackDoc :=
  { userId := 3
    category := "teacher"
    teacherId := some 1
    responses := sampleResponses
    sentiment := "negative"
    learningType := some (some "Slow Learner")
    createdAt := ⟨2023, 1, 1⟩ }

theorem claim_C8_witness :
    (statsRouteGemini (some "k") none 1 [sampleFb, sampleFb2]
        (.ok "x")).2.monthlyTrend =
      (trendNums (geminiScoped none 1 [sampleFb, sampleFb2])).map
        (fun p => (monthLabel p.1, p.2)) ∧
    (∀ m c, (m, c) ∈ trendNums (geminiScoped none 1 [sampleFb, sampleFb2]) →
      c = countMonth (geminiScoped none 1 [sampleFb, sampleFb2]) m ∧ 1 ≤ c) ∧
    (∀ m, m ∈ (trendNums (geminiScoped none 1 [sampleFb, sampleFb2])).map
        Prod.fst ↔
      ∃ f ∈ geminiScoped none 1 [sampleFb, sampleFb2],
        f.createdAt.month = m) ∧
    (trendNums (geminiScoped none 1 [sampleFb, sampleFb2])).Pairwise
      (fun p q => p.1 < q.1) ∧
    (∀ resp : StatsResponseG,
      (statsRouteGroq (some "k") 1 [sampleFb, sampleFb2] (.ok "x")).2 =
        .ok resp →
      "monthlyTrend" ∉ resp.jsonKeys) :=
  claim_C8_amended (some "k") none 1 [sampleFb, sampleFb2] (.ok "x")

/-- **C5 counterexample**.  As stated the claim is false: `callGroqInsights`
has no empty-texts short-circuit, so synthesis over zero texts still attempts
a fetch (call count 1, not 0); and in `callGeminiInsights` the missing-key
check precedes the empty-texts check, so with no credential the
configuration placeholder — not the "not enough data" placeholder — is
returned for empty input. -/
theorem claim_C5_counterexample :
    (callGroqInsights (some "k") [] (.ok "whatever")).fetchCalls = 1 ∧
    (callGeminiInsights none [] (.ok "whatever")).result = .ok geminiKeyMissing ∧
    geminiKeyMissing ≠ geminiNotEnough := by
  exact ⟨rfl, rfl, by decide⟩

/-- **C5** (corrected).  Amended claim: with zero feedback texts neither
route and neither Gemini-synthesizer branch contacts the external service
(call count 0); `callGeminiInsights` returns the fixed "not enough data"
placeholder provided the credential is configured (with it missing the
configuration placeholder is returned instead, still without a call), and
both routes return their own fixed no-data placeholders.  (The Groq
synthesizer itself, never invoked by its route on empty input, would attempt
a fetch — see the counterexample.) -/
theorem claim_C5_amended (key : String) (anyKey : Option String)
    (texts : List String) (svc : ServiceOutcome) (ht : texts = [])
    (param : Option String) (tid : Nat) (all : List FeedbackDoc)
    (hg : groqScoped tid all = []) (hm : geminiScoped param tid all = []) :
    (callGeminiInsights (some key) texts svc).fetchCalls = 0 ∧
    (callGeminiInsights (some key) texts svc).result = .ok geminiNotEnough ∧
    (callGeminiInsights none texts svc).fetchCalls = 0 ∧
    (callGeminiInsights none texts svc).result = .ok geminiKeyMissing ∧
    (statsRouteGroq anyKey tid all svc).1 = 0 ∧
    (statsRouteGroq anyKey tid all svc).2 = .ok
      { totalFeedback := 0, positive := 0, neutral := 0, negative := 0
        improvementAreas := [groqAreasBackstop]
        summary := .str "No feedback yet to analyze."
        feedbacks := [] } ∧
    (statsRouteGemini anyKey param tid all svc).1 = 0 ∧
    (statsRouteGemini anyKey param tid all svc).2.summary =
      "Not enough data for a summary." ∧
    (statsRouteGemini anyKey param tid all svc).2.improvementAreas =
      ["Not enough data for analysis."] := by
  subst ht
  refine ⟨rfl, rfl, rfl, rfl, ?_, ?_, ?_, ?_, ?_⟩
  all_goals
    simp only [statsRouteGroq, statsRouteGemini, hg, hm, List.map_nil]
  all_goals rfl

theorem claim_C5_amended_witness :
    (([] : List String) = []) ∧ groqScoped 1 [] = [] ∧
      geminiScoped none 1 [] = [] ∧
      ((callGeminiInsights (some "k") [] (.ok "x")).fetchCalls = 0 ∧
        (callGeminiInsights (some "k") [] (.ok "x")).result =
          .ok geminiNotEnough ∧
        (callGeminiInsights none [] (.ok "x")).fetchCalls = 0 ∧
        (callGeminiInsights none [] (.ok "x")).result = .ok geminiKeyMissing ∧
        (statsRouteGroq (some "k") 1 [] (.ok "x")).1 = 0 ∧
        (statsRouteGroq (some "k") 1 [] (.ok "x")).2 = .ok
          { totalFeedback := 0, positive := 0, neutral := 0, negative := 0
            improvementAreas := [groqAreasBackstop]
            summary := .str "No feedback yet to analyze."
            feedbacks := [] } ∧
        (statsRouteGemini (some "k") none 1 [] (.ok "x")).1 = 0 ∧
        (statsRouteGemini (some "k") none 1 [] (.ok "x")).2.summary =
          "Not enough data for a summary." ∧
        (statsRouteGemini (some "k") none 1 [] (.ok "x")).2.improvementAreas =
          ["Not enough data for analysis."]) :=
  ⟨rfl, rfl, rfl,
    claim_C5_amended "k" (some "k") [] (.ok "x") rfl none 1 [] rfl rfl⟩

/-- **C3 counterexample**.  As stated the claim is false on the Gemini
variant: its sanitization step does not deduplicate, so two entries that
differ only in surrounding whitespace survive as two equal strings. -/
theorem claim_C3_counterexample :
    geminiSanitizeAreas [Json.str " pacing ", Json.str "pacing"] =
      ["pacing", "pacing"] ∧
    ¬ (geminiSanitizeAreas [Json.str " pacing ", Json.str "pacing"]).Nodup := by
  exact ⟨rfl, by decide⟩

/-- **C3** (corrected).  Amended claim: both sanitizers drop non-string
entries, trim whitespace and drop strings empty after trimming (so every
surviving entry is non-empty); the Groq sanitizer additionally deduplicates
preserving first-seen order (its output is duplicate-free and an
order-preserving sublist of the trim-filtered input, with the same members),
and there collapses whitespace-differing duplicates; the Gemini sanitizer
performs no deduplication — it is exactly the trim-filter. -/
theorem claim_C3_amended (raw : List Json) :
    (∀ a ∈ trimFilterAreas raw, a ≠ "") ∧
    geminiSanitizeAreas raw = trimFilterAreas raw ∧
    (trimFilterAreas raw ≠ [] →
      groqSanitizeAreas raw = dedupFirst (trimFilterAreas raw) ∧
      (groqSanitizeAreas raw).Nodup ∧
      List.Sublist (groqSanitizeAreas raw) (trimFilterAreas raw) ∧
      (∀ a, a ∈ groqSanitizeAreas raw ↔ a ∈ trimFilterAreas raw)) ∧
    trimFilterAreas [Json.str " a ", Json.num 3, Json.str "", Json.str "b"] =
      ["a", "b"] ∧
    groqSanitizeAreas [Json.str " pacing ", Json.str "pacing"] = ["pacing"] := by
  refine ⟨fun a ha => mem_trimFilterAreas ha, rfl, ?_, by decide, by decide⟩
  intro hne
  unfold groqSanitizeAreas
  rw [if_neg hne]
  exact ⟨rfl, nodup_dedupFirst _, dedupFirst_sublist _, fun a => mem_dedupFirst⟩

theorem claim_C3_witness :
    (trimFilterAreas [Json.str " pacing ", Json.str "pacing"] ≠ []) ∧
      (groqSanitizeAreas [Json.str " pacing ", Json.str "pacing"] =
          dedupFirst (trimFilterAreas [Json.str " pacing ", Json.str "pacing"]) ∧
        (groqSanitizeAreas [Json.str " pacing ", Json.str "pacing"]).Nodup ∧
        List.Sublist (groqSanitizeAreas [Json.str " pacing ", Json.str "pacing"])
          (trimFilterAreas [Json.str " pacing ", Json.str "pacing"]) ∧
        (∀ a, a ∈ groqSanitizeAreas [Json.str " pacing ", Json.str "pacing"] ↔
          a ∈ trimFilterAreas [Json.str " pacing ", Json.str "pacing"])) :=
  ⟨by decide,
    (claim_C3_amended [Json.str " pacing ", Json.str "pacing"]).2.2.1 (by decide)⟩

/-- **C2 counterexample**.  As stated the claim is false on the Groq
variant: on plain prose with no brace-bounded substring, `callGroqInsights`
raises "Invalid Groq JSON" to its caller instead of returning the text. -/
theorem claim_C2_counterexample :
    (callGroqInsights (some "k") ["Great teacher."]
        (.ok "Plain prose here.")).result = .error "Invalid Groq JSON" := by
  rfl

/-- **C2** (corrected).  Amended claim: on a response body that is plain
unstructured prose (no brace-bounded substring; unparseable directly), the
Gemini synthesizer does not raise: it returns the trimmed raw text as the
summary with `improvementAreas` left empty — the placeholder fill happens
only in the Groq-variant route's backstop, not inside synthesize; the Groq
synthesizer instead raises an "Invalid Groq JSON" error, which its route's
catch converts to an error placeholder. -/
theorem claim_C2_amended (s : String) (hbrace : ('{' : Char) ∉ s.data)
    (hp1 : jsonParse s = none) (hp2 : jsonParse (jsTrim s) = none)
    (hne : jsTrim s ≠ "") (key : String) (texts : List String)
    (ht : texts ≠ []) :
    (callGeminiInsights (some key) texts (.ok s)).result =
      .ok ⟨jsTrim s, []⟩ ∧
    (callGroqInsights (some key) texts (.ok s)).result =
      .error "Invalid Groq JSON" := by
  have hbrace' : ('{' : Char) ∉ (jsTrim s).data :=
    fun hmem => hbrace ((jsTrim_data_sublist s).subset hmem)
  have htryp : tryParse (jsTrim s) = none := by
    unfold tryParse
    rw [hp2, braceSlice_eq_none hbrace']
  have hgem : geminiBuild s = ⟨jsTrim s, []⟩ := by
    unfold geminiBuild
    rw [if_neg hne, htryp]
    rfl
  have hs : s ≠ "" := by
    intro h
    subst h
    exact hne rfl
  have hgp : groqParse s = .error "Invalid Groq JSON" := by
    unfold groqParse
    rw [hp1, braceSlice_eq_none hbrace]
  have htE : texts.isEmpty = false := by
    cases texts with
    | nil => exact absurd rfl ht
    | cons x xs => rfl
  constructor
  · simp only [callGeminiInsights, htE, Bool.false_eq_true, if_false, hgem]
  · simp only [callGroqInsights, groqBuild, if_neg hs, hgp]

theorem claim_C2_amended_witness :
    (('{' : Char) ∉ ("A rather plain prose answer." : String).data) ∧
      jsonParse "A rather plain prose answer." = none ∧
      jsonParse (jsTrim "A rather plain prose answer.") = none ∧
      jsTrim "A rather plain prose answer." ≠ "" ∧
      (["t"] : List String) ≠ [] ∧
      ((callGeminiInsights (some "k") ["t"]
          (.ok "A rather plain prose answer.")).result =
        .ok ⟨jsTrim "A rather plain prose answer.", []⟩ ∧
      (callGroqInsights (some "k") ["t"]
          (.ok "A rather plain prose answer.")).result =
        .error "Invalid Groq JSON") :=
  ⟨by decide, rfl, rfl, by decide, by decide,
    claim_C2_amended "A rather plain prose answer." (by decide) rfl rfl
      (by decide) "k" ["t"] (by decide)⟩

/-- Definitional bridge: the summary in the variant-2 response is the
`aiOutput` summary. -/
lemma statsRouteGemini_summary_eq (key param : Option String) (tid : Nat)
    (all : List FeedbackDoc) (svc : ServiceOutcome) :
    (statsRouteGemini key param tid all svc).2.summary =
      (geminiAiRaw key ((geminiScoped param tid all).map
        (fun f => feedbackText f.responses)) svc).2.summary := rfl

/-- Definitional bridge: the improvement areas in the variant-2 response are
the `aiOutput` improvement areas. -/
lemma statsRouteGemini_areas_eq (key param : Option String) (tid : Nat)
    (all : List FeedbackDoc) (svc : ServiceOutcome) :
    (statsRouteGemini key param tid all svc).2.improvementAreas =
      (geminiAiRaw key ((geminiScoped param tid all).map
        (fun f => feedbackText f.responses)) svc).2.improvementAreas := rfl

/-- **C1 counterexample**.  As stated the claim is false: the Gemini-variant
stats route has no non-empty backstop, so when the service returns plain
prose the response reaches the caller with `improvementAreas = []` (the
summary is the prose itself). -/
theorem claim_C1_counterexample :
    (statsRouteGemini (some "k") none 1 [sampleFb]
        (.ok "Just some plain prose.")).2.improvementAreas = [] ∧
    (statsRouteGemini (some "k") none 1 [sampleFb]
        (.ok "Just some plain prose.")).2.summary =
      "Just some plain prose." := by
  exact ⟨rfl, rfl⟩

/-- **C1** (corrected).  Amended claim: in the Groq variant the backstop
guarantees the full invariant — every 200 response has a string summary that
is non-blank after trimming and a non-empty `improvementAreas` whose entries
are all non-empty.  The Gemini variant guarantees a non-empty summary on
every path and that every improvement-area entry is non-empty, but the array
itself is empty exactly on the unstructured-prose fallback (where the
summary is the trimmed raw service text) — see the counterexample. -/
theorem claim_C1_amended (key : Option String) (tid : Nat)
    (all : List FeedbackDoc) (svc : ServiceOutcome) (param : Option String)
    (resp : StatsResponseG)
    (hok : (statsRouteGroq key tid all svc).2 = .ok resp) :
    ((∃ s, resp.summary = .str s ∧ jsTrim s ≠ "") ∧
      resp.improvementAreas ≠ [] ∧
      (∀ a ∈ resp.improvementAreas, a ≠ "")) ∧
    ((statsRouteGemini key param tid all svc).2.summary ≠ "" ∧
      (∀ a ∈ (statsRouteGemini key param tid all svc).2.improvementAreas,
        a ≠ "") ∧
      ((statsRouteGemini key param tid all svc).2.improvementAreas = [] →
        ∃ raw, svc = .ok raw ∧
          (statsRouteGemini key param tid all svc).2.summary = jsTrim raw)) := by
  have h := geminiAiRaw_props key ((geminiScoped param tid all).map
    (fun f => feedbackText f.responses)) svc
  refine ⟨statsRouteGroq_ok hok, ?_, ?_, ?_⟩
  · rw [statsRouteGemini_summary_eq]
    exact h.1
  · rw [statsRouteGemini_areas_eq]
    exact h.2
  · rw [statsRouteGemini_areas_eq, statsRouteGemini_summary_eq]
    intro hnil
    exact geminiAiRaw_areas_nil hnil

/-- The concrete variant-1 response produced for the witness below: one
scoped record, service unreachable. -/
def c1WitnessResp : StatsResponseG :=
  { totalFeedback := 1
    positive := 1
    neutral := 0
    negative := 0
    improvementAreas := [groqAreasBackstop]
    summary := .str "Groq error: boom"
    feedbacks := [sampleFb] }

theorem claim_C1_amended_witness :
    ((statsRouteGroq (some "k") 1 [sampleFb] (.networkError "boom")).2 =
        .ok c1WitnessResp) ∧
      (((∃ s, c1WitnessResp.summary = .str s ∧ jsTrim s ≠ "") ∧
          c1WitnessResp.improvementAreas ≠ [] ∧
          (∀ a ∈ c1WitnessResp.improvementAreas, a ≠ "")) ∧
        ((statsRouteGemini (some "k") none 1 [sampleFb]
            (.networkError "boom")).2.summary ≠ "" ∧
          (∀ a ∈ (statsRouteGemini (some "k") none 1 [sampleFb]
              (.networkError "boom")).2.improvementAreas, a ≠ "") ∧
          ((statsRouteGemini (some "k") none 1 [sampleFb]
              (.networkError "boom")).2.improvementAreas = [] →
            ∃ raw, (ServiceOutcome.networkError "boom") = .ok raw ∧
              (statsRouteGemini (some "k") none 1 [sampleFb]
                  (.networkError "boom")).2.summary = jsTrim raw))) :=
  ⟨rfl, claim_C1_amended (some "k") 1 [sampleFb] (.networkError "boom") none
    c1WitnessResp rfl⟩

/-- **C4 counterexample**.  As stated the claim is false: in the Groq
variant, a successfully fetched, parseable response whose `summary` field is
a truthy non-string (here the number 42) survives `callGroqInsights`, and the
route's backstop then calls `.trim()` on it — a TypeError that the outer
catch turns into a 500, failing the whole stats request even though the
record set was read. -/
theorem claim_C4_counterexample :
    (statsRouteGroq (some "k") 1 [sampleFb]
        (.ok "\x7b\"summary\": 42, \"improvementAreas\": [\"x\"]\x7d")).2 =
      .error "aiOutput.summary.trim is not a function" := by
  rfl

/-- **C4** (corrected).  Amended claim: for the enumerated service failures —
missing credential, rejected fetch, non-success HTTP status, or empty
extracted output — the Groq-variant stats request still succeeds, carrying
the real aggregate counts and recent records next to an error-flavored
placeholder insight; and the Gemini-variant route never fails at all: its
aggregate counts, monthly trend and recent records are identical for any two
service outcomes.  However, a parseable Groq response whose `summary` field
is a truthy non-string crashes the variant-1 backstop and fails the request
with a server error — see the counterexample. -/
theorem claim_C4_amended (key : Option String) (param : Option String)
    (tid : Nat) (all : List FeedbackDoc) (svc svc' : ServiceOutcome)
    (hS : groqScoped tid all ≠ []) (hfail : groqCallFails key svc) :
    ((statsRouteGemini key param tid all svc).2.totalFeedback =
        (statsRouteGemini key param tid all svc').2.totalFeedback ∧
      (statsRouteGemini key param tid all svc).2.positive =
        (statsRouteGemini key param tid all svc').2.positive ∧
      (statsRouteGemini key param tid all svc).2.neutral =
        (statsRouteGemini key param tid all svc').2.neutral ∧
      (statsRouteGemini key param tid all svc).2.negative =
        (statsRouteGemini key param tid all svc').2.negative ∧
      (statsRouteGemini key param tid all svc).2.monthlyTrend =
        (statsRouteGemini key param tid all svc').2.monthlyTrend ∧
      (statsRouteGemini key param tid all svc).2.feedbacks =
        (statsRouteGemini key param tid all svc').2.feedbacks) ∧
    (∃ m, (statsRouteGroq key tid all svc).2 = .ok
      { totalFeedback := (groqScoped tid all).length
        positive := countSentiment (groqScoped tid all) "positive"
        neutral := countSentiment (groqScoped tid all) "neutral"
        negative := countSentiment (groqScoped tid all) "negative"
        improvementAreas := [groqAreasBackstop]
        summary := .str ("Groq error: " ++ m)
        feedbacks := (groqScoped tid all).take 5 }) := by
  exact ⟨⟨rfl, rfl, rfl, rfl, rfl, rfl⟩, statsRouteGroq_failure hS hfail⟩

theorem claim_C4_amended_witness :
    (groqScoped 1 [sampleFb] ≠ []) ∧
      groqCallFails (some "k") (.networkError "boom") ∧
      (((statsRouteGemini (some "k") none 1 [sampleFb]
            (.networkError "boom")).2.totalFeedback =
          (statsRouteGemini (some "k") none 1 [sampleFb]
            (.ok "x")).2.totalFeedback ∧
        (statsRouteGemini (some "k") none 1 [sampleFb]
            (.networkError "boom")).2.positive =
          (statsRouteGemini (some "k") none 1 [sampleFb]
            (.ok "x")).2.positive ∧
        (statsRouteGemini (some "k") none 1 [sampleFb]
            (.networkError "boom")).2.neutral =
          (statsRouteGemini (some "k") none 1 [sampleFb]
            (.ok "x")).2.neutral ∧
        (statsRouteGemini (some "k") none 1 [sampleFb]
            (.networkError "boom")).2.negative =
          (statsRouteGemini (some "k") none 1 [sampleFb]
            (.ok "x")).2.negative ∧
        (statsRouteGemini (some "k") none 1 [sampleFb]
            (.networkError "boom")).2.monthlyTrend =
          (statsRouteGemini (some "k") none 1 [sampleFb]
            (.ok "x")).2.monthlyTrend ∧
        (statsRouteGemini (some "k") none 1 [sampleFb]
            (.networkError "boom")).2.feedbacks =
          (statsRouteGemini (some "k") none 1 [sampleFb]
            (.ok "x")).2.feedbacks) ∧
      (∃ m, (statsRouteGroq (some "k") 1 [sampleFb] (.networkError "boom")).2 =
        .ok
        { totalFeedback := (groqScoped 1 [sampleFb]).length
          positive := countSentiment (groqScoped 1 [sampleFb]) "positive"
          neutral := countSentiment (groqScoped 1 [sampleFb]) "neutral"
          negative := countSentiment (groqScoped 1 [sampleFb]) "negative"
          improvementAreas := [groqAreasBackstop]
          summary := .str ("Groq error: " ++ m)
          feedbacks := (groqScoped 1 [sampleFb]).take 5 })) :=
  ⟨by decide, Or.inr (Or.inl ⟨"boom", rfl⟩),
    claim_C4_amended (some "k") none 1 [sampleFb] (.networkError "boom")
      (.ok "x") (by decide) (Or.inr (Or.inl ⟨"boom", rfl⟩))⟩

end FeedbackSystem
